import Mathlib

/-!
Shallow embedding of the training-loop orchestration engine of
`src/python/train.py` (KataGo training driver), with theorems settling the
frozen claims about it.  Python strings are modelled as lists of characters,
Python floats and ints that flow into arithmetic as rationals, Python dicts
used as metric maps as association lists in insertion order, and the touched
part of the file system as explicit lists of existing paths.  Fallible
filesystem operations return `Except PyErr`.
-/

/-- Python strings, modelled as their character lists (`s[:n]` is `take n`,
`s.startswith p` is `p.isPrefixOf s`, `s.endswith p` is `p.isSuffixOf s`). -/
abbrev PyStr := List Char

/-- Errors the modelled Python library calls can raise. -/
inductive PyErr where
  | fileNotFound : PyErr
  | fileExists : PyErr
deriving DecidableEq

/-! ### C1 — bucket advance in `maybe_reload_training_data` (train.py 446-461) -/

/-- The dict key `"train_bucket_level_at_row"` of train.py line 447-448. -/
def bucketLevelAtRowKey : PyStr := "train_bucket_level_at_row".data

/-- Top-level keys the `trainhistory` dict ever has: `"history"` from its
initialiser (train.py 392-394, and the loaded file holds what `save_history`
wrote), plus `"train_state"` and `"extra_stats"` written by `save_history`
(train.py 404-405).  `"train_bucket_level_at_row"` is never among them: that
key is only ever set in `train_state`. -/
def trainhistoryTopKeys : List PyStr :=
  ["history".data, "train_state".data, "extra_stats".data]

/-- The bucket-advance block of `maybe_reload_training_data` (train.py
446-461), run when a new data directory was detected and
`max_train_bucket_per_new_data` is configured.  Takes the keys of the
`trainhistory` dict, the configured quantities, the newly read manifest end
row, and the current `train_state` fields; returns the new
`(train_bucket_level_at_row, train_bucket_level)`.  Line 447 tests membership
in `trainhistory` (not `train_state`), and on a miss line 448 overwrites
`train_state["train_bucket_level_at_row"]` with `last_datainfo_row` before
the comparison on line 449. -/
def bucket_advance_on_reload (trainhistoryKeys : List PyStr)
    (samples_per_epoch max_train_bucket_size max_train_bucket_per_new_data : ℚ)
    (last_datainfo_row train_bucket_level_at_row train_bucket_level : ℚ) :
    ℚ × ℚ :=
  let at_row :=
    if trainhistoryKeys.contains bucketLevelAtRowKey then train_bucket_level_at_row
    else last_datainfo_row
  if last_datainfo_row > at_row then
    let new_row_count := last_datainfo_row - at_row
    let level := train_bucket_level + new_row_count * max_train_bucket_per_new_data
    let cap := max max_train_bucket_size samples_per_epoch
    (last_datainfo_row, if level > cap then cap else level)
  else (at_row, train_bucket_level)

/-! ### C2 — DDP-prefix stripping in `load` (train.py 293-299) -/

/-- The prefix `"module."` the loader tries to strip (train.py 297). -/
def moduleDotStr : PyStr := "module.".data

/-- A model parameter key as saved under `DistributedDataParallel`. -/
def moduleWeightKey : PyStr := "module.weight".data

/-- One iteration of the `while key.startswith("module."):` body of train.py
line 298: the code assigns `key = key[:7]`, the FIRST seven characters. -/
def strip_module_step (key : PyStr) : PyStr := key.take 7

/-- The whole stripping loop of train.py 297-298, run with `fuel` iteration
steps: `some key` once the guard fails, `none` when the fuel is exhausted
with the guard still true (so the Python loop has not terminated within that
many iterations). -/
def strip_module_fuel : ℕ → PyStr → Option PyStr
  | 0, _ => none
  | n + 1, key =>
    if moduleDotStr.isPrefixOf key then strip_module_fuel n (strip_module_step key)
    else some key

/-! ### C3 — metrics stream opening and flushing (train.py 523-544) -/

/-- Contents a Python `open(path, mode)` leaves the file with: a mode whose
first character is `'w'` (such as the `"w+"` of train.py 543) truncates the
file to empty; `"r"`, `"r+"`, `"a"`, `"a+"` keep the existing contents. -/
def pyOpenContents (mode : PyStr) (existing : List PyStr) : List PyStr :=
  if mode.take 1 = ['w'] then [] else existing

/-- The mode string of `train_metrics_out = open(..., "w+")` (train.py 543). -/
def wPlusMode : PyStr := "w+".data

/-- Contents of `metrics_train.json` right after process startup opens it
(train.py 543), given the records a previous process instance left in it. -/
def open_train_metrics_out (existing : List PyStr) : List PyStr :=
  pyOpenContents wPlusMode existing

/-- One flush of `log_metrics` (train.py 540-541): `metrics_out.write(record
+ "\n")` appends exactly one newline-delimited record, then flushes. -/
def metrics_out_write_record (contents : List PyStr) (record : PyStr) : List PyStr :=
  contents ++ [record]

/-- A record written by a previous process instance. -/
def prevInstanceRecord : PyStr := "record-from-previous-instance".data

/-- The record the first flush after the restart writes. -/
def newInstanceRecord : PyStr := "record-after-restart".data

/-! ### C4 — export step of `main` (train.py 690-715) -/

/-- Filesystem paths as component lists (no symlinks are involved here). -/
abbrev FsPath := List PyStr

/-- The part of the filesystem state the export step touches: which
directories and which regular files exist. -/
structure FS where
  dirs : List FsPath
  files : List FsPath
deriving DecidableEq

/-- `os.mkdir(p)`: `FileExistsError` when `p` exists, `FileNotFoundError`
when its parent directory does not exist, else creates the directory. -/
def os_mkdir (fs : FS) (p : FsPath) : Except PyErr FS :=
  if fs.dirs.contains p || fs.files.contains p then Except.error PyErr.fileExists
  else if fs.dirs.contains p.dropLast then
    Except.ok { dirs := p :: fs.dirs, files := fs.files }
  else Except.error PyErr.fileNotFound

/-- `open(p, "w")` / `torch.save(..., p)` / `dump_and_flush_json(..., p)`:
creating or truncating a regular file at `p` requires the parent directory
to exist, else Python raises `FileNotFoundError`. -/
def pyOpenWrite (fs : FS) (p : FsPath) : Except PyErr FS :=
  if fs.dirs.contains p.dropLast then
    Except.ok { dirs := fs.dirs,
                files := if fs.files.contains p then fs.files else p :: fs.files }
  else Except.error PyErr.fileNotFound

/-- `os.replace(src, dst)` on a regular file: atomically renames `src` over
`dst`. -/
def os_replace_path (fs : FS) (src dst : FsPath) : Except PyErr FS :=
  if fs.files.contains src then
    Except.ok { dirs := fs.dirs, files := dst :: ((fs.files.erase src).erase dst) }
  else Except.error PyErr.fileNotFound

/-- Rebases one path from under `src` to under `dst` (for directory rename). -/
def rebasePath (src dst p : FsPath) : FsPath :=
  if src.isPrefixOf p then dst ++ p.drop src.length else p

/-- `os.rename(src, dst)` on a directory: the directory and everything under
it move to the new name. -/
def os_rename_dir (fs : FS) (src dst : FsPath) : Except PyErr FS :=
  if fs.dirs.contains src then
    Except.ok { dirs := fs.dirs.map (rebasePath src dst),
                files := fs.files.map (rebasePath src dst) }
  else Except.error PyErr.fileNotFound

/-- Name suffix `".tmp"` of `savepathtmp` (train.py 698). -/
def tmpMark : PyStr := ".tmp".data

/-- File name `"model.ckpt"` (train.py 705). -/
def modelCkptName : PyStr := "model.ckpt".data

/-- Temporary name `"model.ckpt.tmp"` that `save` writes first (train.py 205). -/
def modelCkptTmpName : PyStr := "model.ckpt.tmp".data

/-- File name `"trainhistory.json"` (train.py 706). -/
def trainhistoryJsonName : PyStr := "trainhistory.json".data

/-- File name `"model.config.json"` (train.py 707-712). -/
def modelConfigJsonName : PyStr := "model.config.json".data

/-- Subdirectory name `"saved_model"` (train.py 709). -/
def savedModelDirName : PyStr := "saved_model".data

/-- Subdirectory name `"non_swa_saved_model"` (train.py 711). -/
def nonSwaSavedModelDirName : PyStr := "non_swa_saved_model".data

/-- The export step of `main` (train.py 690-715) for a given derived model
name: if `savepath` already exists it is a no-op (line 699-700); otherwise it
creates `savepathtmp` with `os.mkdir` (line 702), writes the checkpoint via
`save(..., path=savepathtmp/model.ckpt)` (which writes `model.ckpt.tmp` and
`os.replace`s it, train.py 205-206), dumps `trainhistory.json` and
`model.config.json`, then opens `savepathtmp/saved_model/model.config.json`
and `savepathtmp/non_swa_saved_model/model.config.json` for writing (lines
709-712) — subdirectories nothing created — and finally renames
`savepathtmp` to `savepath` (line 715). -/
def export_step (fs0 : FS) (exportdir : FsPath) (modelname : PyStr) : Except PyErr FS := do
  let savepath := exportdir ++ [modelname]
  let savepathtmp := exportdir ++ [modelname ++ tmpMark]
  if fs0.dirs.contains savepath || fs0.files.contains savepath then
    return fs0
  let fs1 ← os_mkdir fs0 savepathtmp
  let fs2 ← pyOpenWrite fs1 (savepathtmp ++ [modelCkptTmpName])
  let fs3 ← os_replace_path fs2 (savepathtmp ++ [modelCkptTmpName]) (savepathtmp ++ [modelCkptName])
  let fs4 ← pyOpenWrite fs3 (savepathtmp ++ [trainhistoryJsonName])
  let fs5 ← pyOpenWrite fs4 (savepathtmp ++ [modelConfigJsonName])
  let fs6 ← pyOpenWrite fs5 (savepathtmp ++ [savedModelDirName, modelConfigJsonName])
  let fs7 ← pyOpenWrite fs6 (savepathtmp ++ [nonSwaSavedModelDirName, modelConfigJsonName])
  os_rename_dir fs7 savepathtmp savepath

/-- A fresh export directory. -/
def exportDemoDir : FsPath := ["exportdir".data]

/-- A derived export name, `"%s-s%d-d%d" % (prefix, step, row)` (train.py 692). -/
def exportDemoModelName : PyStr := "kata-s1000-d2000".data

/-- Filesystem holding just the (empty) export directory. -/
def exportDemoFS : FS := { dirs := [exportDemoDir], files := [] }

/-! ### C5 — default checkpoint save (train.py 191-214, called at 668) -/

/-- The checkpoint-related files of the training directory:
`checkpoint.ckpt`, its temporary `.tmp`, the rotated `checkpoint_prev{i}.ckpt`
files, and anything else living there. -/
inductive TrainDirFile where
  | current : TrainDirFile
  | currentTmp : TrainDirFile
  | prev : ℕ → TrainDirFile
  | other : PyStr → TrainDirFile
deriving DecidableEq

/-- One turn of the rotation loop of `save` (train.py 209-211):
`if os.path.exists(get_checkpoint_prev_path(i)): os.replace(prev i, prev
(i+1))`. -/
def rotate_one (fs : List TrainDirFile) (i : ℕ) : List TrainDirFile :=
  if TrainDirFile.prev i ∈ fs then
    TrainDirFile.prev (i + 1) :: ((fs.erase (TrainDirFile.prev i)).erase (TrainDirFile.prev (i + 1)))
  else fs

/-- `shutil.copy(get_checkpoint_path(), get_checkpoint_prev_path(0))`
(train.py 212): raises `FileNotFoundError` when `checkpoint.ckpt` does not
exist.  The copy is NOT guarded by an existence check. -/
def shutil_copy_checkpoint (fs : List TrainDirFile) : Except PyErr (List TrainDirFile) :=
  if TrainDirFile.current ∈ fs then
    Except.ok (if TrainDirFile.prev 0 ∈ fs then fs else TrainDirFile.prev 0 :: fs)
  else Except.error PyErr.fileNotFound

/-- `save` with `path=None` (train.py 207-214), at rank 0:
`for i in reversed(range(NUM_SHORTTERM_CHECKPOINTS_TO_KEEP-1))` rotates
`prev2 → prev3`, `prev1 → prev2`, `prev0 → prev1`; then the current
checkpoint is copied to `prev0`; then the new state is written to
`checkpoint.ckpt.tmp` and atomically renamed over `checkpoint.ckpt`. -/
def save_default (fs : List TrainDirFile) : Except PyErr (List TrainDirFile) :=
  let fs1 := [2, 1, 0].foldl rotate_one fs
  match shutil_copy_checkpoint fs1 with
  | Except.error e => Except.error e
  | Except.ok fs2 =>
    let fs3 := if TrainDirFile.currentTmp ∈ fs2 then fs2 else TrainDirFile.currentTmp :: fs2
    Except.ok (TrainDirFile.current ::
      ((fs3.erase TrainDirFile.currentTmp).erase TrainDirFile.current))

/-! ### C6 — train-bucket consumption at epoch start (train.py 571-583) -/

/-- The epoch-start bucket check of `main` (train.py 572-583): when
`train_state["train_bucket_level"] > 0.99 * samples_per_epoch` the level is
debited by `samples_per_epoch` and the epoch proceeds (`true`); otherwise the
level is untouched and the driver sleeps 300 seconds and retries (`false`). -/
def try_consume (train_bucket_level samples_per_epoch : ℚ) : Bool × ℚ :=
  if train_bucket_level > 99 / 100 * samples_per_epoch then
    (true, train_bucket_level - samples_per_epoch)
  else (false, train_bucket_level)

/-! ### C7 — sub-epoch file selection (train.py 593-616) -/

/-- The file-selection loop of `main` (train.py 596-616) over the batch
counts of the files the shuffled generator yields, with the values
`random.random()` would return supplied as `draws` (one is consumed exactly
when line 608 evaluates its right conjunct, i.e. when the file crosses the
target and the running total is positive).  Files with `num_batches <= 0`
are skipped (line 602-603).  When `batches_to_use_so_far +
num_batches_this_file > num_batches_per_subepoch` and the running total is
positive and the draw is `>=` the overshoot fraction, the loop breaks
without taking the file (line 605-609).  Otherwise the file is appended and
the loop breaks once the total reaches the target or more than 100000 files
are selected (line 611-616).  Returns the chosen file indices and the final
running batch total. -/
def select_go (target : ℚ) : List ℚ → List ℚ → ℚ → List ℕ → ℕ → List ℕ × ℚ
  | [], _, t, acc, _ => (acc, t)
  | b :: bs, draws, t, acc, idx =>
    if b ≤ 0 then select_go target bs draws t acc (idx + 1)
    else if t + b > target ∧ 0 < t ∧ (t + b - target) / b ≤ draws.headI then
      (acc, t)
    else
      let draws2 := if t + b > target ∧ 0 < t then draws.tail else draws
      let t2 := t + b
      let acc2 := acc ++ [idx]
      if t2 ≥ target ∨ acc2.length > 100000 then (acc2, t2)
      else select_go target bs draws2 t2 acc2 (idx + 1)

/-- Entry point of the selection: empty accumulator, zero running total. -/
def select_files (target : ℚ) (batch_counts draws : List ℚ) : List ℕ × ℚ :=
  select_go target batch_counts draws 0 [] 0

/-- Follows the words of claim C7 (NOT the source): every boundary-crossing
file — the first file included — is skipped with probability
`(t + b - target) / b`, modelled canonically as skipping exactly when the
uniform draw is below that fraction, and selection stops at the boundary
either way. -/
def select_go_claimed (target : ℚ) : List ℚ → List ℚ → ℚ → List ℕ → ℕ → List ℕ × ℚ
  | [], _, t, acc, _ => (acc, t)
  | b :: bs, draws, t, acc, idx =>
    if b ≤ 0 then select_go_claimed target bs draws t acc (idx + 1)
    else if t + b > target then
      if draws.headI < (t + b - target) / b then (acc, t) else (acc ++ [idx], t + b)
    else
      let t2 := t + b
      if t2 ≥ target then (acc ++ [idx], t2)
      else select_go_claimed target bs draws t2 (acc ++ [idx]) (idx + 1)

/-! ### C8 — export cycle counter (train.py 672-690) -/

/-- The per-epoch export decision block of `main` (train.py 673-682) at rank
0: the counter is incremented; when it reaches `epochs_per_export` it is
clamped there if `no_export` is set, else reset to 0 with
`is_time_to_export = True`.  Returns the new counter and the decision. -/
def on_epoch_complete (no_export : Bool) (epochs_per_export counter : ℕ) : ℕ × Bool :=
  let c := counter + 1
  if c ≥ epochs_per_export then
    if no_export then (epochs_per_export, false) else (0, true)
  else (c, false)

/-- `n` consecutive epoch completions starting from counter 0: the final
counter and whether any completion decided to export. -/
def run_epochs (no_export : Bool) (epochs_per_export : ℕ) : ℕ → ℕ × Bool
  | 0 => (0, false)
  | n + 1 =>
    let r := run_epochs no_export epochs_per_export n
    let s := on_epoch_complete no_export epochs_per_export r.1
    (s.1, r.2 || s.2)

/-! ### C9/C10 — metrics aggregation (train.py 508-541) -/

/-- A Python dict from metric name to float, as an association list in
insertion order with unique keys. -/
abbrev MetricMap := List (PyStr × ℚ)

/-- The metric-name suffix `"_sum"` (train.py 511, 526). -/
def sumSfx : PyStr := "_sum".data

/-- The metric-name suffix `"_batch"` (train.py 516, 528). -/
def batchSfx : PyStr := "_batch".data

/-- `d[k]` on a `defaultdict(float)` (train.py 552-553): 0 for a missing key. -/
def lookupD : MetricMap → PyStr → ℚ
  | [], _ => 0
  | kv :: rest, k => if kv.1 = k then kv.2 else lookupD rest k

/-- `d[k] = v`: overwrite in place, or append a new key in insertion order. -/
def setVal : MetricMap → PyStr → ℚ → MetricMap
  | [], k, v => [(k, v)]
  | kv :: rest, k, v => if kv.1 = k then (k, v) :: rest else kv :: setVal rest k v

/-- `d[k] += v` on a `defaultdict(float)`. -/
def addVal (m : MetricMap) (k : PyStr) (v : ℚ) : MetricMap :=
  setVal m k (lookupD m k + v)

/-- `d[k] *= d0` on a `defaultdict(float)`. -/
def mulVal (m : MetricMap) (k : PyStr) (d0 : ℚ) : MetricMap :=
  setVal m k (lookupD m k * d0)

/-- Body of the decay loop of `accumulate_metrics` (train.py 510-513), for
one key of `metric_sums`: only names ending in `"_sum"` have their sum and
weight multiplied by `decay`. -/
def decayStep (decay : ℚ) (sw : MetricMap × MetricMap) (kv : PyStr × ℚ) :
    MetricMap × MetricMap :=
  if sumSfx.isSuffixOf kv.1 then (mulVal sw.1 kv.1 decay, mulVal sw.2 kv.1 decay)
  else sw

/-- Body of the addition loop of `accumulate_metrics` (train.py 515-521),
for one entry of the incoming batch metrics: non-`"_batch"` names add
`batch_size` to the weight, `"_batch"` names add 1. -/
def addStep (batch_size : ℚ) (sw : MetricMap × MetricMap) (kv : PyStr × ℚ) :
    MetricMap × MetricMap :=
  if ¬ (batchSfx.isSuffixOf kv.1) then
    (addVal sw.1 kv.1 kv.2, addVal sw.2 kv.1 batch_size)
  else (addVal sw.1 kv.1 kv.2, addVal sw.2 kv.1 1)

/-- `accumulate_metrics(metric_sums, metric_weights, metrics, batch_size,
decay)` (train.py 508-521): when `decay != 1.0` the decay loop runs over the
keys of `metric_sums` first, then every incoming metric is added. -/
def accumulate_metrics (metric_sums metric_weights metrics : MetricMap)
    (batch_size decay : ℚ) : MetricMap × MetricMap :=
  let sw :=
    if decay ≠ 1 then metric_sums.foldl (decayStep decay) (metric_sums, metric_weights)
    else (metric_sums, metric_weights)
  metrics.foldl (addStep batch_size) sw

/-- Python `s[:-n]` for a nonempty drop count. -/
def pyDropRight (s : PyStr) (n : ℕ) : PyStr := s.take (s.length - n)

/-- `k in d` membership test on a dict. -/
def hasKey : MetricMap → PyStr → Bool
  | [], _ => false
  | kv :: rest, k => if kv.1 = k then true else hasKey rest k

/-- `log_metrics(metric_sums, metric_weights, metrics, metrics_out)`
(train.py 523-538), the dict part: builds `metrics_to_print` — `"_sum"`
names are divided by their weight and printed under the name with the suffix
stripped, `"_batch"` names are divided by their weight and then reset to
zero, other names print their raw sum; metrics absent from `metric_sums`
print their instantaneous value.  Returns `(metrics_to_print, metric_sums,
metric_weights)` after the resets. -/
def log_metrics (metric_sums metric_weights metrics : MetricMap) :
    MetricMap × MetricMap × MetricMap :=
  let printed := metric_sums.foldl (fun st kv =>
    if sumSfx.isSuffixOf kv.1 then
      (setVal st.1 (pyDropRight kv.1 4) (lookupD st.2.1 kv.1 / lookupD st.2.2 kv.1),
       st.2.1, st.2.2)
    else if batchSfx.isSuffixOf kv.1 then
      (setVal st.1 kv.1 (lookupD st.2.1 kv.1 / lookupD st.2.2 kv.1),
       setVal st.2.1 kv.1 0, setVal st.2.2 kv.1 0)
    else
      (setVal st.1 kv.1 (lookupD st.2.1 kv.1), st.2.1, st.2.2))
    (([] : MetricMap), metric_sums, metric_weights)
  let withExtra := metrics.foldl (fun tp kv =>
    if hasKey metric_sums kv.1 then tp else setVal tp kv.1 kv.2) printed.1
  (withExtra, printed.2.1, printed.2.2)

/-- The metric name `"loss_sum"` of the worked example. -/
def lossSumKey : PyStr := "loss_sum".data

/-- Printed name of `"loss_sum"` after the suffix strip: `"loss"`. -/
def lossKey : PyStr := "loss".data

/-- The metric name `"gnorm_batch"` (train.py 639). -/
def gnormBatchKey : PyStr := "gnorm_batch".data

/-! ## Theorems -/

/-- C1: evaluation of the bucket-advance block at two successive reloads whose
manifest end rows (150, then 200) strictly exceed the previously accounted row
(100, then 150), with `fill_rate = 2`, `max_train_bucket_size = 1000`,
`samples_per_epoch = 100` and bucket level 100.  Because line 447 tests
`"train_bucket_level_at_row" not in trainhistory` — always true, the key lives
in `train_state` — the accounted row is first reset to the new end row and the
level never increases: both reloads return level 100, while an advance of 50
new rows at fill rate 2 would have to yield 100 + 50 * 2 = 200. -/
theorem train_bucket_never_advances_on_reload :
    (100 : ℚ) < 150 ∧
    bucket_advance_on_reload trainhistoryTopKeys 100 1000 2 150 100 100 = (150, 100) ∧
    bucket_advance_on_reload trainhistoryTopKeys 100 1000 2 200 150 100 = (200, 100) ∧
    (100 : ℚ) + 50 * 2 = 200 ∧ (100 : ℚ) ≠ 200 := by
  have hc : trainhistoryTopKeys.contains bucketLevelAtRowKey = false := by decide
  have hm : bucketLevelAtRowKey ∉ trainhistoryTopKeys := by decide
  refine ⟨by norm_num, ?_, ?_, by norm_num, by norm_num⟩ <;>
    norm_num [bucket_advance_on_reload, hc, hm]

/-- Helper for C2: once the key has been cut down to exactly `"module."`, the
loop body maps it to itself, so no amount of further iterations exits. -/
theorem strip_fuel_moduleDot (n : ℕ) : strip_module_fuel n moduleDotStr = none := by
  induction n with
  | zero => rfl
  | succ n ih =>
    have h1 : moduleDotStr.isPrefixOf moduleDotStr = true := by decide
    have h2 : strip_module_step moduleDotStr = moduleDotStr := by decide
    simp only [strip_module_fuel, h1, if_true, h2]
    exact ih

/-- C2: on the checkpoint key `"module.weight"` the guard of the stripping
loop holds, and the loop never terminates: after any number of iterations of
`key = key[:7]` the guard still holds (the body yields `"module."`, a fixed
point that still starts with `"module."`), so `load` hangs instead of
producing the unprefixed key `"weight"`. -/
theorem load_module_strip_loop_never_terminates :
    moduleDotStr.isPrefixOf moduleWeightKey = true ∧
    ∀ n : ℕ, strip_module_fuel n moduleWeightKey = none := by
  refine ⟨by decide, ?_⟩
  intro n
  cases n with
  | zero => rfl
  | succ n =>
    have h1 : moduleDotStr.isPrefixOf moduleWeightKey = true := by decide
    have h2 : strip_module_step moduleWeightKey = moduleDotStr := by decide
    simp only [strip_module_fuel, h1, if_true, h2]
    exact strip_fuel_moduleDot n

/-- C3: opening the metrics stream on startup with mode `"w+"` truncates it:
a record a previous process instance wrote is gone immediately after the
open, and after the first flush of the new instance the stream holds only the
new record — earlier records are not still present. -/
theorem metrics_stream_truncated_on_restart :
    open_train_metrics_out [prevInstanceRecord] = [] ∧
    metrics_out_write_record (open_train_metrics_out [prevInstanceRecord]) newInstanceRecord
      = [newInstanceRecord] ∧
    prevInstanceRecord ∉
      metrics_out_write_record (open_train_metrics_out [prevInstanceRecord])
        newInstanceRecord := by
  refine ⟨by decide, by decide, by decide⟩

/-- C4: the first export into a fresh export directory fails with
`FileNotFoundError`: after `os.mkdir(savepathtmp)` the step opens
`savepathtmp/saved_model/model.config.json` for writing, but the
`saved_model` subdirectory was never created, so the write raises and the
atomic rename never happens — no export directory is produced, rather than
the claimed successful first call. -/
theorem export_first_call_raises_missing_subdir :
    export_step exportDemoFS exportDemoDir exportDemoModelName
      = Except.error PyErr.fileNotFound := by
  rfl

/-- C5: `save` with no target path on a training directory holding neither
`checkpoint.ckpt` nor any rotated `checkpoint_prev{i}.ckpt`: the rotation
loop does nothing, and the unconditional
`shutil.copy(checkpoint.ckpt, checkpoint_prev0.ckpt)` raises
`FileNotFoundError`, so the first default checkpoint save of a brand-new run
never commits. -/
theorem first_default_save_fails_on_fresh_traindir (fs : List TrainDirFile)
    (hcur : TrainDirFile.current ∉ fs) (hprev : ∀ i, TrainDirFile.prev i ∉ fs) :
    save_default fs = Except.error PyErr.fileNotFound := by
  have h1 : [2, 1, 0].foldl rotate_one fs = fs := by
    simp [List.foldl, rotate_one, hprev 2, hprev 1, hprev 0]
  simp [save_default, h1, shutil_copy_checkpoint, hcur]

/-- C5 witness: the theorem applied to the completely empty training
directory. -/
theorem first_default_save_fresh_witness :
    save_default [] = Except.error PyErr.fileNotFound :=
  first_default_save_fails_on_fresh_traindir [] (List.not_mem_nil _)
    (fun _ => List.not_mem_nil _)

/-- C6 counterexample: at a bucket level exactly equal to
`0.99 * samples_per_epoch` (level 99, `samples_per_epoch` 100) the claimed
success condition ("at least", holding exactly at equality) would debit the
bucket, but the code's strict comparison fails: nothing is consumed and the
driver waits. -/
theorem try_consume_fails_at_exact_threshold :
    (99 : ℚ) = 99 / 100 * 100 ∧ try_consume 99 100 = (false, 99) := by
  constructor
  · norm_num
  · norm_num [try_consume]

/-- C6 amended: the epoch proceeds (debiting exactly `samples_per_epoch`)
exactly when the level is strictly greater than `0.99 * samples_per_epoch`;
at or below that threshold — equality included — the level is left unchanged
and the driver waits and retries. -/
theorem try_consume_strict_threshold (level spe : ℚ) :
    (level = 99 / 100 * spe → try_consume level spe = (false, level)) ∧
    (99 / 100 * spe < level → try_consume level spe = (true, level - spe)) ∧
    (level ≤ 99 / 100 * spe → try_consume level spe = (false, level)) := by
  refine ⟨fun h => ?_, fun h => ?_, fun h => ?_⟩
  · have hn : ¬ level > 99 / 100 * spe := by rw [h]; exact lt_irrefl _
    simp [try_consume, hn]
  · simp [try_consume, h]
  · have hn : ¬ level > 99 / 100 * spe := not_lt.mpr h
    simp [try_consume, hn]

/-- C7 counterexample: the code and the claimed rule disagree at concrete
inputs.  First input: the very first file (10 batches) already exceeds the
target 5, draw 0 — the claimed rule (skip with probability `(0+10-5)/10 =
1/2`, i.e. on draws below 1/2) skips it and selects nothing, but the code
always includes a first crossing file.  Second input: target 12, files of 10
and 10 batches, draw 1/2 at the crossing of the second file — the claimed
rule skips (1/2 < 8/10), but the code breaks only on draws `>= 8/10` and so
includes the file. -/
theorem select_files_deviates_from_claimed_rule :
    select_files 5 [10] [0] = ([0], 10) ∧
    select_go_claimed 5 [10] [0] 0 [] 0 = ([], 0) ∧
    select_files 12 [10, 10] [1 / 2] = ([0, 1], 20) ∧
    select_go_claimed 12 [10, 10] [1 / 2] 0 [] 0 = ([0], 10) := by
  refine ⟨?_, ?_, ?_, ?_⟩ <;> norm_num [select_files, select_go, select_go_claimed]

/-- C7 amended: at a boundary-crossing file (positive batch count `b`,
running total `t`, `t + b` over the target), the file is skipped — excluded,
selection stopping — exactly when the running total is positive and the
uniform draw is at least `(t + b - target) / b` (so it is included with that
overshoot fraction as its probability, not skipped with it); on lower draws
it is included and selection stops; and a crossing file reached with running
total 0 (the very first file) is always included, never skipped. -/
theorem select_boundary_rule (target b : ℚ) (bs draws : List ℚ) (t : ℚ)
    (acc : List ℕ) (idx : ℕ) (hb : 0 < b) (hcross : target < t + b) :
    (0 < t → (t + b - target) / b ≤ draws.headI →
      select_go target (b :: bs) draws t acc idx = (acc, t)) ∧
    (0 < t → draws.headI < (t + b - target) / b →
      select_go target (b :: bs) draws t acc idx = (acc ++ [idx], t + b)) ∧
    (t = 0 → select_go target (b :: bs) draws t acc idx = (acc ++ [idx], t + b)) := by
  have hble : ¬ b ≤ 0 := not_le.mpr hb
  refine ⟨fun ht hr => ?_, fun ht hr => ?_, fun ht => ?_⟩
  · simp only [select_go]
    rw [if_neg hble,
      if_pos (show t + b > target ∧ 0 < t ∧ (t + b - target) / b ≤ draws.headI from
        ⟨hcross, ht, hr⟩)]
  · simp only [select_go]
    rw [if_neg hble,
      if_neg (show ¬ (t + b > target ∧ 0 < t ∧ (t + b - target) / b ≤ draws.headI) from
        fun hand => absurd hand.2.2 (not_le.mpr hr))]
    have hfin : t + b ≥ target := le_of_lt hcross
    simp [hfin]
  · subst ht
    simp only [select_go]
    rw [if_neg hble,
      if_neg (show ¬ ((0 : ℚ) + b > target ∧ (0 : ℚ) < 0 ∧
          ((0 : ℚ) + b - target) / b ≤ draws.headI) from
        fun hand => absurd hand.2.1 (lt_irrefl 0))]
    have hfin : target ≤ b := by linarith
    simp [hfin]

/-- C7 witness: the skip branch at target 12, one remaining file of 10
batches, running total 10, draw 1: the overshoot fraction is 8/10, the draw
is at least it, the file is skipped and selection stops. -/
theorem select_boundary_rule_witness :
    select_go 12 [10] [(1 : ℚ)] 10 [0] 1 = ([0], 10) :=
  (select_boundary_rule 12 10 [] [(1 : ℚ)] 10 [0] 1 (by norm_num) (by norm_num)).1
    (by norm_num) (by norm_num [List.headI])

/-- C8: after any epoch completion the export cycle counter lies within
`[0, epochs_per_export]` (it is a natural number, so never below 0), exporting is
decided only with the counter reset to 0, a completion under `no_export`
never decides to export — and concretely, with period 3 and exports
disabled, 5 epoch completions from counter 0 end at exactly 3 with no export
decision ever made. -/
theorem export_cycle_counter_invariant (noexp : Bool) (p c : ℕ) :
    ((on_epoch_complete noexp p c).1 ≤ p ∧
     ((on_epoch_complete noexp p c).2 = true → (on_epoch_complete noexp p c).1 = 0) ∧
     (noexp = true → (on_epoch_complete noexp p c).2 = false)) ∧
    run_epochs true 3 5 = (3, false) := by
  constructor
  · unfold on_epoch_complete
    by_cases h1 : c + 1 ≥ p
    · by_cases h2 : noexp = true
      · simp [h1, h2]
      · simp [h1, h2]
    · simp [h1]
      omega
  · decide


/-- Helper: writing key `k` then reading `k` gives the written value. -/
theorem lookupD_setVal_self (m : MetricMap) (k : PyStr) (v : ℚ) :
    lookupD (setVal m k v) k = v := by
  induction m with
  | nil => simp [setVal, lookupD]
  | cons kv rest ih =>
    by_cases h : kv.1 = k
    · simp [setVal, lookupD, h]
    · simp [setVal, lookupD, h, ih]

/-- Helper: writing key `q` leaves reads of any other key `k` unchanged. -/
theorem lookupD_setVal_ne (m : MetricMap) (k q : PyStr) (v : ℚ) (h : q ≠ k) :
    lookupD (setVal m q v) k = lookupD m k := by
  induction m with
  | nil => simp [setVal, lookupD, h]
  | cons kv rest ih =>
    by_cases h2 : kv.1 = q
    · simp [setVal, lookupD, h2, h]
    · simp [setVal, lookupD, h2, ih]

/-- Helper: pointwise effect of the decay loop of `accumulate_metrics` on
BOTH maps — a key's sum and weight are multiplied by the decay exactly when
the key is one of the iterated (sums) keys and carries the `"_sum"` suffix;
at every other key both maps read unchanged. -/
theorem decay_fold_lookup (d : ℚ) (l : MetricMap) :
    ∀ (s w : MetricMap) (k : PyStr), (l.map Prod.fst).Nodup →
      (lookupD (l.foldl (decayStep d) (s, w)).1 k =
        if k ∈ l.map Prod.fst ∧ sumSfx.isSuffixOf k then lookupD s k * d
        else lookupD s k) ∧
      (lookupD (l.foldl (decayStep d) (s, w)).2 k =
        if k ∈ l.map Prod.fst ∧ sumSfx.isSuffixOf k then lookupD w k * d
        else lookupD w k) := by
  induction l with
  | nil =>
    intro s w k _
    constructor <;> simp
  | cons kv rest ih =>
    intro s w k hnd
    rw [List.map_cons, List.nodup_cons] at hnd
    rw [List.foldl_cons]
    by_cases hsfx : sumSfx.isSuffixOf kv.1
    · have hstep : decayStep d (s, w) kv = (mulVal s kv.1 d, mulVal w kv.1 d) := by
        simp [decayStep, hsfx]
      rw [hstep]
      constructor
      · rw [(ih (mulVal s kv.1 d) (mulVal w kv.1 d) k hnd.2).1]
        by_cases hk : k = kv.1
        · subst hk
          rw [if_neg (fun hc => hnd.1 hc.1), mulVal, lookupD_setVal_self]
          rw [List.map_cons, if_pos ⟨List.mem_cons_self _ _, hsfx⟩]
        · rw [mulVal, lookupD_setVal_ne _ _ _ _ (fun he => hk he.symm)]
          simp only [List.map_cons, List.mem_cons, hk, false_or]
      · rw [(ih (mulVal s kv.1 d) (mulVal w kv.1 d) k hnd.2).2]
        by_cases hk : k = kv.1
        · subst hk
          rw [if_neg (fun hc => hnd.1 hc.1), mulVal, lookupD_setVal_self]
          rw [List.map_cons, if_pos ⟨List.mem_cons_self _ _, hsfx⟩]
        · rw [mulVal, lookupD_setVal_ne _ _ _ _ (fun he => hk he.symm)]
          simp only [List.map_cons, List.mem_cons, hk, false_or]
    · have hstep : decayStep d (s, w) kv = (s, w) := by
        simp [decayStep, hsfx]
      rw [hstep]
      constructor
      · rw [(ih s w k hnd.2).1]
        by_cases hk : k = kv.1
        · subst hk
          rw [if_neg (fun hc => hsfx hc.2), if_neg (fun hc => hsfx hc.2)]
        · simp only [List.map_cons, List.mem_cons, hk, false_or]
      · rw [(ih s w k hnd.2).2]
        by_cases hk : k = kv.1
        · subst hk
          rw [if_neg (fun hc => hsfx hc.2), if_neg (fun hc => hsfx hc.2)]
        · simp only [List.map_cons, List.mem_cons, hk, false_or]

/-- Helper: both branches of the addition loop body write the sums map at the
incoming key. -/
theorem addStep_fst (batch_size : ℚ) (sw : MetricMap × MetricMap) (kv : PyStr × ℚ) :
    (addStep batch_size sw kv).1 = addVal sw.1 kv.1 kv.2 := by
  unfold addStep
  by_cases h : batchSfx.isSuffixOf kv.1 <;> simp [h]

/-- Helper: both branches of the addition loop body write the weights map at
the incoming key only, so reads at any other key are unchanged. -/
theorem addStep_snd_ne (batch_size : ℚ) (sw : MetricMap × MetricMap)
    (kv : PyStr × ℚ) (k : PyStr) (hkv : kv.1 ≠ k) :
    lookupD (addStep batch_size sw kv).2 k = lookupD sw.2 k := by
  unfold addStep
  split_ifs <;> simp [addVal, lookupD_setVal_ne _ _ _ _ hkv]

/-- Helper: the addition loop of `accumulate_metrics` does not change the
sums map at keys absent from the incoming batch metrics. -/
theorem add_fold_lookup_notmem (batch_size : ℚ) (m : MetricMap) :
    ∀ (sw : MetricMap × MetricMap) (k : PyStr), k ∉ m.map Prod.fst →
      lookupD (m.foldl (addStep batch_size) sw).1 k = lookupD sw.1 k := by
  induction m with
  | nil =>
    intro sw k _
    rfl
  | cons kv rest ih =>
    intro sw k hk
    rw [List.map_cons, List.mem_cons] at hk
    push_neg at hk
    rw [List.foldl_cons, ih _ k hk.2, addStep_fst]
    rw [addVal, lookupD_setVal_ne _ _ _ _ (fun he => hk.1 he.symm)]

/-- Helper: the addition loop of `accumulate_metrics` does not change the
weights map at keys absent from the incoming batch metrics. -/
theorem add_fold_lookup_notmem_snd (batch_size : ℚ) (m : MetricMap) :
    ∀ (sw : MetricMap × MetricMap) (k : PyStr), k ∉ m.map Prod.fst →
      lookupD (m.foldl (addStep batch_size) sw).2 k = lookupD sw.2 k := by
  induction m with
  | nil =>
    intro sw k _
    rfl
  | cons kv rest ih =>
    intro sw k hk
    rw [List.map_cons, List.mem_cons] at hk
    push_neg at hk
    rw [List.foldl_cons, ih _ k hk.2,
      addStep_snd_ne batch_size sw kv k (fun he => hk.1 he.symm)]

/-- C9 counterexample: an accumulated pair whose name is `"gnorm_batch"` —
present in the aggregator state but not `"_sum"`-suffixed — is NOT multiplied
by the decay factor 1/2 during `accumulate_metrics`: its sum stays 4 and its
weight stays 2, while the claim requires every present pair to be decayed
(4 * 1/2 = 2 ≠ 4). -/
theorem decay_skips_non_sum_metrics :
    accumulate_metrics [(gnormBatchKey, 4)] [(gnormBatchKey, 2)] [] 1 (1 / 2)
      = ([(gnormBatchKey, 4)], [(gnormBatchKey, 2)]) ∧ (4 : ℚ) * (1 / 2) ≠ 4 := by
  refine ⟨?_, by norm_num⟩
  norm_num [accumulate_metrics, decayStep, mulVal, setVal, lookupD, sumSfx,
    gnormBatchKey]
  decide

/-- C9 amended: for every call to `accumulate_metrics` with `decay ≠ 1`, the
decay phase multiplies exactly the accumulated sum/weight pairs whose metric
name ends in `"_sum"` by the decay factor — the sum and the weight both —
and every other pair's sum and weight are left unchanged (read here at any
key untouched by the incoming batch, so that the decay phase's effect is
isolated). -/
theorem decay_only_sum_suffix_pairs (decay batch_size : ℚ) (s w m : MetricMap)
    (k : PyStr) (hnd : (s.map Prod.fst).Nodup) (hdec : decay ≠ 1)
    (hm : k ∉ m.map Prod.fst) :
    (lookupD (accumulate_metrics s w m batch_size decay).1 k =
      if k ∈ s.map Prod.fst ∧ sumSfx.isSuffixOf k then lookupD s k * decay
      else lookupD s k) ∧
    (lookupD (accumulate_metrics s w m batch_size decay).2 k =
      if k ∈ s.map Prod.fst ∧ sumSfx.isSuffixOf k then lookupD w k * decay
      else lookupD w k) := by
  simp only [accumulate_metrics]
  rw [if_pos hdec]
  constructor
  · rw [add_fold_lookup_notmem batch_size m _ k hm]
    exact (decay_fold_lookup decay s s w k hnd).1
  · rw [add_fold_lookup_notmem_snd batch_size m _ k hm]
    exact (decay_fold_lookup decay s s w k hnd).2

/-- C9 witness: the theorem applied to the state holding only
`"loss_sum" ↦ 10` with weight 1, decay 1/2 and no incoming metrics: both the
sum and the weight of the `"_sum"`-suffixed pair are multiplied by 1/2. -/
theorem decay_only_sum_suffix_pairs_witness :
    (lookupD (accumulate_metrics [(lossSumKey, 10)] [(lossSumKey, 1)] [] 1 (1 / 2)).1
        lossSumKey
      = if lossSumKey ∈ ([(lossSumKey, (10 : ℚ))].map Prod.fst) ∧
            sumSfx.isSuffixOf lossSumKey
        then lookupD [(lossSumKey, (10 : ℚ))] lossSumKey * (1 / 2)
        else lookupD [(lossSumKey, (10 : ℚ))] lossSumKey) ∧
    (lookupD (accumulate_metrics [(lossSumKey, 10)] [(lossSumKey, 1)] [] 1 (1 / 2)).2
        lossSumKey
      = if lossSumKey ∈ ([(lossSumKey, (10 : ℚ))].map Prod.fst) ∧
            sumSfx.isSuffixOf lossSumKey
        then lookupD [(lossSumKey, (1 : ℚ))] lossSumKey * (1 / 2)
        else lookupD [(lossSumKey, (1 : ℚ))] lossSumKey) :=
  decay_only_sum_suffix_pairs (1 / 2) 1 [(lossSumKey, 10)] [(lossSumKey, 1)] []
    lossSumKey (by decide) (by norm_num) (by decide)

/-- C10: from empty aggregator state with decay 1/2, accumulating
`{"loss_sum": 10}` at batch size 1 twice yields sum 10 * (1/2) + 10 = 15 and
weight 1 * (1/2) + 1 = 3/2 for `"loss_sum"`, and the subsequent flush prints
15 / (3/2) = 10 under the stripped name `"loss"`. -/
theorem metrics_aggregator_decay_half_example :
    accumulate_metrics
        (accumulate_metrics [] [] [(lossSumKey, 10)] 1 (1 / 2)).1
        (accumulate_metrics [] [] [(lossSumKey, 10)] 1 (1 / 2)).2
        [(lossSumKey, 10)] 1 (1 / 2)
      = ([(lossSumKey, 15)], [(lossSumKey, 3 / 2)]) ∧
    lookupD
        (log_metrics [(lossSumKey, 15)] [(lossSumKey, 3 / 2)] [(lossSumKey, 10)]).1
        lossKey
      = 10 := by
  constructor
  · norm_num [accumulate_metrics, decayStep, addStep, addVal, mulVal, setVal,
      lookupD, sumSfx, batchSfx, lossSumKey]
  · norm_num [log_metrics, setVal, lookupD, hasKey, pyDropRight, sumSfx, batchSfx,
      lossSumKey, lossKey]
